import Mathlib

/-!
Verification of the CHIP-8 emulator core (`src/cpu.rs`, `src/memory.rs`)
against its natural-language specification.

The Rust source is embedded shallowly:
* `u8`/`u16` values become `Nat`, with `% 256` / `% 65536` written out
  wherever the source uses wrapping arithmetic;
* fixed-size arrays (`[u8; 4096]`, `[u8; 16]`, `[u16; 16]`) become
  `List Nat`, with well-formedness (length) hypotheses in the theorems;
* fallible operations return explicit result types.  A Rust `panic!`
  (or an out-of-range slice index, which panics at runtime) is a
  distinct outcome from a returned `Err`/`None`, so the embedding keeps
  them apart: `AssignResult.err` is the `Err(String)` path of
  `Memory::assign`, while `AssignResult.crash` is a slice-index panic.
-/

/-- `Memory` from `src/memory.rs`: `data: [u8; 4096]`. -/
structure Memory where
  data : List Nat
deriving DecidableEq

/-- Outcome of `Memory::assign` (`Result<(), String>` in the source,
plus the possibility of a slice-index panic). -/
inductive AssignResult where
  | ok (m : Memory)
  | err (addr : Nat)
  | crash (addr : Nat)
deriving DecidableEq

/-- Outcome of `Memory::address` (`Option<&u8>` in the source, plus the
possibility of a slice-index panic). -/
inductive ReadResult where
  | val (b : Nat)
  | invalid
  | crash (addr : Nat)
deriving DecidableEq

/-- `Memory::new` from `src/memory.rs`: the sixteen 5-byte font glyph
sprites are seeded at the bottom of the 4096-byte array.  (The source
writes them row by row into `data[0..5]`, `data[5..10]`, ….) -/
def Memory.new : Memory :=
  ⟨[0xF0, 0x90, 0x90, 0x90, 0xF0] ++ -- "0"
   [0x20, 0x60, 0x20, 0x20, 0x70] ++ -- "1"
   [0xF0, 0x10, 0xF0, 0x80, 0xF0] ++ -- "2"
   [0xF0, 0x10, 0xF0, 0x10, 0xF0] ++ -- "3"
   [0x90, 0x90, 0xF0, 0x10, 0x10] ++ -- "4"
   [0xF0, 0x80, 0xF0, 0x10, 0xF0] ++ -- "5"
   [0xF0, 0x80, 0xF0, 0x90, 0xF0] ++ -- "6"
   [0xF0, 0x10, 0x20, 0x40, 0x40] ++ -- "7"
   [0xF0, 0x90, 0xF0, 0x90, 0xF0] ++ -- "8"
   [0xF0, 0x90, 0xF0, 0x10, 0xF0] ++ -- "9"
   [0xF0, 0x90, 0xF0, 0x90, 0x90] ++ -- "A"
   [0xE0, 0x90, 0xE0, 0x90, 0xE0] ++ -- "B"
   [0xF0, 0x80, 0x80, 0x80, 0xF0] ++ -- "C"
   [0xE0, 0x90, 0x90, 0x90, 0xE0] ++ -- "D"
   [0xF0, 0x80, 0xF0, 0x80, 0xF0] ++ -- "E"
   [0xF0, 0x80, 0xF0, 0x80, 0x80] ++ -- "F"
   List.replicate (4096 - 80) 0⟩

/-- `Memory::address` from `src/memory.rs`:
`if addr >= 0x200 && addr <= 0x1000 { Some(&self.data[addr]) } else { None }`.
Note the bound is `<= 0x1000`, and the array has 4096 entries, so at
`addr = 0x1000` the guard passes and the index expression panics. -/
def Memory.address (m : Memory) (addr : Nat) : ReadResult :=
  if 0x200 ≤ addr ∧ addr ≤ 0x1000 then
    if addr < 4096 then .val (m.data.getD addr 0) else .crash addr
  else
    .invalid

/-- `Memory::assign` from `src/memory.rs`:
`if addr >= 0x200 && addr <= 0x1000 { self.data[addr] = value; Ok(()) }
else { Err(format!("Invalid memory address: {:X}", addr)) }`.
Same boundary note as `Memory.address`: at `addr = 0x1000` the guard
passes and the index expression panics before any byte is written. -/
def Memory.assign (m : Memory) (addr value : Nat) : AssignResult :=
  if 0x200 ≤ addr ∧ addr ≤ 0x1000 then
    if addr < 4096 then .ok ⟨m.data.set addr value⟩ else .crash addr
  else
    .err addr

/-- `Chip8` from `src/cpu.rs`. -/
structure Chip8 where
  v_registers : List Nat
  i_register : Nat
  delay_timer : Nat
  sound_timer : Nat
  program_counter : Nat
  stack_pointer : Nat
  stack : List Nat
  memory : Memory
deriving DecidableEq

/-- A run-time failure of an instruction: either one of the
`panic!("Unknown opcode"/"Invalid opcode")` arms of the dispatchers
(carrying the raw opcode), the explicit
`panic!("Invalid memory address")` in `Chip8::draw`, or a slice-index
panic inside `Memory`. -/
inductive Fault where
  | unknownOpcode (opcode : Nat)
  | invalidAddress (addr : Nat)
  | indexCrash (addr : Nat)
deriving DecidableEq

/-- Result of executing one instruction: either the machine state after
the handler ran, or a fault together with the state at the moment the
panic fired. -/
inductive ExecResult where
  | ok (s : Chip8)
  | fault (e : Fault) (s : Chip8)
deriving DecidableEq

/-- Sequencing that propagates a fault, mirroring Rust control flow
where a panic aborts the rest of the handler. -/
def ExecResult.bind (r : ExecResult) (f : Chip8 → ExecResult) : ExecResult :=
  match r with
  | .ok s => f s
  | .fault e s => .fault e s

/-- The machine state carried by a result (for an `ok` result, the
post-state; for a fault, the state at the panic). -/
def ExecResult.state : ExecResult → Chip8
  | .ok s => s
  | .fault _ s => s

/-- Whether the instruction completed without a fault. -/
def ExecResult.isOk : ExecResult → Bool
  | .ok _ => true
  | .fault _ _ => false

/-- `Chip8::new` from `src/cpu.rs`.  Note the source initializes
`program_counter: 0`. -/
def Chip8.new : Chip8 :=
  { v_registers := List.replicate 16 0
    i_register := 0
    delay_timer := 0
    sound_timer := 0
    program_counter := 0
    stack_pointer := 0
    stack := List.replicate 16 0
    memory := Memory.new }

/-!
Operand-field extraction, exactly as the dispatchers write it.  In Rust
the shift operators bind tighter than `&`, so `opcode & 0x0F00 >> 8`
parses as `opcode & (0x0F00 >> 8)`, i.e. `opcode & 0xF` — these are the
literal expressions from `Chip8::execute`, `Chip8::logitcal_op`,
`Chip8::skip_with_key_status` and `Chip8::fx_inst`.
-/

/-- `let x = opcode & 0x0F00 >> 8` (Rust precedence: `opcode & (0x0F00 >> 8)`). -/
def decodeX (opcode : Nat) : Nat := opcode &&& (0x0F00 >>> 8)

/-- `let y = opcode & 0x00F0 >> 4` (Rust precedence: `opcode & (0x00F0 >> 4)`). -/
def decodeY (opcode : Nat) : Nat := opcode &&& (0x00F0 >>> 4)

/-- `opcode & 0x0FFF`, the `nnn` / `addr` field. -/
def decodeAddr (opcode : Nat) : Nat := opcode &&& 0x0FFF

/-- `opcode & 0x00FF`, the `kk` / `byte` field. -/
def decodeByte (opcode : Nat) : Nat := opcode &&& 0x00FF

/-- `opcode & 0x000F`, the `n` / `nibble` field. -/
def decodeNibble (opcode : Nat) : Nat := opcode &&& 0x000F

/-- `opcode & 0xF000`, the top-nibble selector `Chip8::execute` matches on. -/
def decodeOpclass (opcode : Nat) : Nat := opcode &&& 0xF000

/-- `Chip8::jump_to` (opcode `1nnn`). -/
def Chip8.jump_to (s : Chip8) (addr : Nat) : Chip8 :=
  { s with program_counter := addr }

/-- `Chip8::call_subroutine` (opcode `2nnn`): `sp = (sp + 1) % 16`,
`stack[sp] = pc`, `pc = addr`. -/
def Chip8.call_subroutine (s : Chip8) (addr : Nat) : Chip8 :=
  let sp := (s.stack_pointer + 1) % 16
  { s with
    stack_pointer := sp
    stack := s.stack.set sp s.program_counter
    program_counter := addr }

/-- `Chip8::skip_if_equal` (opcode `3xkk`); `pc += 2` is a `u16` add. -/
def Chip8.skip_if_equal (s : Chip8) (x b : Nat) : Chip8 :=
  if s.v_registers.getD x 0 = b then
    { s with program_counter := (s.program_counter + 2) % 65536 }
  else s

/-- `Chip8::skip_if_not_equal` (opcode `4xkk`). -/
def Chip8.skip_if_not_equal (s : Chip8) (x b : Nat) : Chip8 :=
  if s.v_registers.getD x 0 ≠ b then
    { s with program_counter := (s.program_counter + 2) % 65536 }
  else s

/-- `Chip8::skip_if_registers_equal` (opcode `5xy0`). -/
def Chip8.skip_if_registers_equal (s : Chip8) (x y : Nat) : Chip8 :=
  if s.v_registers.getD x 0 = s.v_registers.getD y 0 then
    { s with program_counter := (s.program_counter + 2) % 65536 }
  else s

/-- `Chip8::skip_if_registers_not_equal` (opcode `9xy0`). -/
def Chip8.skip_if_registers_not_equal (s : Chip8) (x y : Nat) : Chip8 :=
  if s.v_registers.getD x 0 ≠ s.v_registers.getD y 0 then
    { s with program_counter := (s.program_counter + 2) % 65536 }
  else s

/-- `Chip8::load_to_register` (opcode `6xkk`). -/
def Chip8.load_to_register (s : Chip8) (x b : Nat) : Chip8 :=
  { s with v_registers := s.v_registers.set x b }

/-- `Chip8::add_to_register` (opcode `7xkk`): `wrapping_add` on `u8`. -/
def Chip8.add_to_register (s : Chip8) (x b : Nat) : Chip8 :=
  { s with v_registers := s.v_registers.set x ((s.v_registers.getD x 0 + b) % 256) }

/-- `Chip8::load_from_to` (opcode `8xy0`). -/
def Chip8.load_from_to (s : Chip8) (x y : Nat) : Chip8 :=
  { s with v_registers := s.v_registers.set x (s.v_registers.getD y 0) }

/-- `Chip8::or` (opcode `8xy1`). -/
def Chip8.or (s : Chip8) (x y : Nat) : Chip8 :=
  { s with v_registers :=
      s.v_registers.set x (s.v_registers.getD x 0 ||| s.v_registers.getD y 0) }

/-- `Chip8::and` (opcode `8xy2`). -/
def Chip8.and (s : Chip8) (x y : Nat) : Chip8 :=
  { s with v_registers :=
      s.v_registers.set x (s.v_registers.getD x 0 &&& s.v_registers.getD y 0) }

/-- `Chip8::xor` (opcode `8xy3`). -/
def Chip8.xor (s : Chip8) (x y : Nat) : Chip8 :=
  { s with v_registers :=
      s.v_registers.set x (s.v_registers.getD x 0 ^^^ s.v_registers.getD y 0) }

/-- `Chip8::add` (opcode `8xy4`): the source writes the carry into
`v_registers[0xF]` first, and only then reads the operands back for the
`wrapping_add` — so when `y = 0xF` the addend is the freshly written
flag.  The carry test is `v[x] > 0xFF - v[y]` on `u8`. -/
def Chip8.add (s : Chip8) (x y : Nat) : Chip8 :=
  let flag := if 255 - s.v_registers.getD y 0 < s.v_registers.getD x 0 then 1 else 0
  let s1 := { s with v_registers := s.v_registers.set 0xF flag }
  let sum := (s1.v_registers.getD x 0 + s1.v_registers.getD y 0) % 256
  { s1 with v_registers := s1.v_registers.set x sum }

/-- `Chip8::sub` (opcode `8xy5`): flag first (`v[x] > v[y]`), then
`wrapping_sub`; `(a + 256 - b) % 256` is `u8` wrapping subtraction for
byte-sized operands. -/
def Chip8.sub (s : Chip8) (x y : Nat) : Chip8 :=
  let flag := if s.v_registers.getD y 0 < s.v_registers.getD x 0 then 1 else 0
  let s1 := { s with v_registers := s.v_registers.set 0xF flag }
  let diff := (s1.v_registers.getD x 0 + 256 - s1.v_registers.getD y 0) % 256
  { s1 with v_registers := s1.v_registers.set x diff }

/-- `Chip8::shr` (opcode `8xy6`): flag is the low bit of `v[x]`, written
before the shift. -/
def Chip8.shr (s : Chip8) (x y : Nat) : Chip8 :=
  let flag := s.v_registers.getD x 0 &&& 0x1
  let s1 := { s with v_registers := s.v_registers.set 0xF flag }
  let shifted := s1.v_registers.getD x 0 >>> 1
  { s1 with v_registers := s1.v_registers.set x shifted }

/-- `Chip8::subn` (opcode `8xy7`): flag first (`v[y] > v[x]`), then
`v[x] = v[y].wrapping_sub(v[x])`. -/
def Chip8.subn (s : Chip8) (x y : Nat) : Chip8 :=
  let flag := if s.v_registers.getD x 0 < s.v_registers.getD y 0 then 1 else 0
  let s1 := { s with v_registers := s.v_registers.set 0xF flag }
  let diff := (s1.v_registers.getD y 0 + 256 - s1.v_registers.getD x 0) % 256
  { s1 with v_registers := s1.v_registers.set x diff }

/-- `Chip8::shl` (opcode `8xyE`): flag is the high bit of `v[x]`
(`(v[x] & 0x80) >> 7`), written before the shift; `<<= 1` on `u8`
discards the shifted-out bit. -/
def Chip8.shl (s : Chip8) (x y : Nat) : Chip8 :=
  let flag := (s.v_registers.getD x 0 &&& 0x80) >>> 7
  let s1 := { s with v_registers := s.v_registers.set 0xF flag }
  let shifted := s1.v_registers.getD x 0 * 2 % 256
  { s1 with v_registers := s1.v_registers.set x shifted }

/-- `Chip8::logitcal_op`: the `0x8`-class sub-dispatch on
`c = opcode & 0x000F`; the wildcard arm is
`panic!("Unknown opcode: {}", opcode)`. -/
def Chip8.logitcal_op (s : Chip8) (opcode : Nat) : ExecResult :=
  let x := decodeX opcode
  let y := decodeY opcode
  let c := decodeNibble opcode
  if c = 0x0 then .ok (s.load_from_to x y)
  else if c = 0x1 then .ok (s.or x y)
  else if c = 0x2 then .ok (s.and x y)
  else if c = 0x3 then .ok (s.xor x y)
  else if c = 0x4 then .ok (s.add x y)
  else if c = 0x5 then .ok (s.sub x y)
  else if c = 0x6 then .ok (s.shr x y)
  else if c = 0x7 then .ok (s.subn x y)
  else if c = 0xE then .ok (s.shl x y)
  else .fault (.unknownOpcode opcode) s

/-- `Chip8::load_i` (opcode `Annn`): `I = nnn`.  (The source writes to
`self.i_registers`; the declared field is `i_register`.) -/
def Chip8.load_i (s : Chip8) (nnn : Nat) : Chip8 :=
  { s with i_register := nnn }

/-- `Chip8::jump_with_offset` (opcode `Bnnn`): `pc = nnn + v[0]` — a
`u16` add that cannot exceed `0xFFF + 0xFF`, so no wrap. -/
def Chip8.jump_with_offset (s : Chip8) (nnn : Nat) : Chip8 :=
  { s with program_counter := nnn + s.v_registers.getD 0 0 }

/-- `Chip8::random_and` (opcode `Cxkk`): `v[x] = byte & kk` where `byte`
is drawn from `rand::thread_rng()`.  The ambient random source is
passed in as the explicit argument `rnd` (reduced to a byte). -/
def Chip8.random_and (s : Chip8) (x kk rnd : Nat) : Chip8 :=
  { s with v_registers := s.v_registers.set x (rnd % 256 &&& kk) }

/-- `Chip8::draw` (opcode `Dxyn`): the source reads `nibble & 0x0F`
bytes starting at `I` into a local sprite buffer (panicking — the
explicit `panic!("Invalid memory address")` — when `Memory::access`
returns `None`), and stops there: compositing and collision detection
are `TODO`, so no machine state changes. -/
def Chip8.draw (s : Chip8) (x y nibble : Nat) : ExecResult :=
  (List.range (nibble &&& 0x0F)).foldl
    (fun r i =>
      r.bind (fun s1 =>
        match s1.memory.address (s1.i_register + i) with
        | .val _ => .ok s1
        | .invalid => .fault (.invalidAddress (s1.i_register + i)) s1
        | .crash a => .fault (.indexCrash a) s1))
    (.ok s)

/-- `Chip8::skip_with_key_status`: the `0xE`-class sub-dispatch on the
low byte.  Both recognized arms are empty (key detection is `TODO`);
the wildcard arm is `panic!("Invalid opcode: {:X}", opcode)`. -/
def Chip8.skip_with_key_status (s : Chip8) (opcode : Nat) : ExecResult :=
  let low_byte := decodeByte opcode
  if low_byte = 0x9E then .ok s
  else if low_byte = 0xA1 then .ok s
  else .fault (.unknownOpcode opcode) s

/-- `Chip8::load_delay_timer` (opcode `Fx07`). -/
def Chip8.load_delay_timer (s : Chip8) (x : Nat) : Chip8 :=
  { s with v_registers := s.v_registers.set x s.delay_timer }

/-- `Chip8::wait_for_key_press` (opcode `Fx0A`): the body is a `TODO`
stub, so the state is returned unchanged. -/
def Chip8.wait_for_key_press (s : Chip8) (x : Nat) : Chip8 := s

/-- `Chip8::set_delay_timer` (opcode `Fx15`). -/
def Chip8.set_delay_timer (s : Chip8) (x : Nat) : Chip8 :=
  { s with delay_timer := s.v_registers.getD x 0 }

/-- `Chip8::set_sound_timer` (opcode `Fx18`). -/
def Chip8.set_sound_timer (s : Chip8) (x : Nat) : Chip8 :=
  { s with sound_timer := s.v_registers.getD x 0 }

/-- One `self.memory.assign(addr, v)` call whose `Result` the caller
discards (as `Chip8::store_bcd`, `Chip8::store_registers` and
`Chip8::add_to_i_register` all do): an `Err` is silently dropped and
execution continues, while a slice-index panic still aborts. -/
def assignDiscard (s : Chip8) (addr v : Nat) : ExecResult :=
  match s.memory.assign addr v with
  | .ok m => .ok { s with memory := m }
  | .err _ => .ok s
  | .crash a => .fault (.indexCrash a) s

/-- `Chip8::add_to_i_register` (opcode `Fx1E`): despite its name and
its `Set I = I + Vx` comment, the source reads the byte at `I` and
writes `byte.wrapping_add(v[x])` back to memory at `I`; on a `None`
read it only logs via `eprintln!` and continues.  `I` is never
modified. -/
def Chip8.add_to_i_register (s : Chip8) (x : Nat) : ExecResult :=
  match s.memory.address s.i_register with
  | .val value => assignDiscard s s.i_register ((value + s.v_registers.getD x 0) % 256)
  | .invalid => .ok s
  | .crash a => .fault (.indexCrash a) s

/-- `Chip8::set_i_register` (opcode `Fx29`): the body is a `TODO` stub,
so the state is returned unchanged. -/
def Chip8.set_i_register (s : Chip8) (x : Nat) : Chip8 := s

/-- `Chip8::store_bcd` (opcode `Fx33`): three discarded `assign` calls
for the hundreds, tens and ones digits of `v[x]`. -/
def Chip8.store_bcd (s : Chip8) (x : Nat) : ExecResult :=
  (assignDiscard s s.i_register (s.v_registers.getD x 0 / 100)).bind (fun s1 =>
    (assignDiscard s1 (s1.i_register + 1) (s1.v_registers.getD x 0 / 10 % 10)).bind (fun s2 =>
      assignDiscard s2 (s2.i_register + 2) (s2.v_registers.getD x 0 % 10)))

/-- `Chip8::store_registers` (opcode `Fx55`): `for i in 0..=x`,
discarded `assign(I + i, v[i])` calls. -/
def Chip8.store_registers (s : Chip8) (x : Nat) : ExecResult :=
  (List.range (x + 1)).foldl
    (fun r i =>
      r.bind (fun s1 => assignDiscard s1 (s1.i_register + i) (s1.v_registers.getD i 0)))
    (.ok s)

/-- `Chip8::load_registers` (opcode `Fx65`): `for i in 0..=x`,
`if let Some(value) = access(I + i) { v[i] = value }` — a `None` read
is silently skipped. -/
def Chip8.load_registers (s : Chip8) (x : Nat) : ExecResult :=
  (List.range (x + 1)).foldl
    (fun r i =>
      r.bind (fun s1 =>
        match s1.memory.address (s1.i_register + i) with
        | .val value => .ok { s1 with v_registers := s1.v_registers.set i value }
        | .invalid => .ok s1
        | .crash a => .fault (.indexCrash a) s1))
    (.ok s)

/-- `Chip8::fx_inst`: the `0xF`-class sub-dispatch on the low byte; the
wildcard arm is `panic!("Invalid opcode: {:X}", opcode)`. -/
def Chip8.fx_inst (s : Chip8) (opcode : Nat) : ExecResult :=
  let x := decodeX opcode
  let low_byte := decodeByte opcode
  if low_byte = 0x07 then .ok (s.load_delay_timer x)
  else if low_byte = 0x0A then .ok (s.wait_for_key_press x)
  else if low_byte = 0x15 then .ok (s.set_delay_timer x)
  else if low_byte = 0x18 then .ok (s.set_sound_timer x)
  else if low_byte = 0x1E then s.add_to_i_register x
  else if low_byte = 0x29 then .ok (s.set_i_register x)
  else if low_byte = 0x33 then s.store_bcd x
  else if low_byte = 0x55 then s.store_registers x
  else if low_byte = 0x65 then s.load_registers x
  else .fault (.unknownOpcode opcode) s

/-- `Chip8::execute`: dispatch on `opcode & 0xF000`.  For every `Nat`
the mask lands in `{0x0000, 0x1000, …, 0xF000}`, so the final branch is
exactly the `0xF000` arm. -/
def Chip8.execute (s : Chip8) (opcode rnd : Nat) : ExecResult :=
  if decodeOpclass opcode = 0x0000 then .ok s
  else if decodeOpclass opcode = 0x1000 then .ok (s.jump_to (opcode &&& 0x0FFF))
  else if decodeOpclass opcode = 0x2000 then .ok (s.call_subroutine (opcode &&& 0x0FFF))
  else if decodeOpclass opcode = 0x3000 then
    .ok (s.skip_if_equal (decodeX opcode) (decodeByte opcode))
  else if decodeOpclass opcode = 0x4000 then
    .ok (s.skip_if_not_equal (decodeX opcode) (decodeByte opcode))
  else if decodeOpclass opcode = 0x5000 then
    .ok (s.skip_if_registers_equal (decodeX opcode) (decodeY opcode))
  else if decodeOpclass opcode = 0x6000 then
    .ok (s.load_to_register (decodeX opcode) (decodeByte opcode))
  else if decodeOpclass opcode = 0x7000 then
    .ok (s.add_to_register (decodeX opcode) (decodeByte opcode))
  else if decodeOpclass opcode = 0x8000 then s.logitcal_op opcode
  else if decodeOpclass opcode = 0x9000 then
    .ok (s.skip_if_registers_not_equal (decodeX opcode) (decodeY opcode))
  else if decodeOpclass opcode = 0xA000 then .ok (s.load_i (opcode &&& 0x0FFF))
  else if decodeOpclass opcode = 0xB000 then .ok (s.jump_with_offset (opcode &&& 0x0FFF))
  else if decodeOpclass opcode = 0xC000 then
    .ok (s.random_and (decodeX opcode) (decodeByte opcode) rnd)
  else if decodeOpclass opcode = 0xD000 then
    s.draw (decodeX opcode) (decodeY opcode) (decodeNibble opcode)
  else if decodeOpclass opcode = 0xE000 then s.skip_with_key_status opcode
  else s.fx_inst opcode

/-- Modelled from the spec: the repository's driving fetch-decode-execute
loop is not among the given sources (`Chip8::execute` receives the
already-fetched opcode).  Per the spec, every instruction's own 2-byte
width is consumed before its handler runs — "Every instruction except
the explicit jump/call/skip/return forms advances the program counter
by 2 after execution; jump/call targets replace the program counter
outright; a taken skip advances it by 4 total" — realized here as: the
loop advances the 16-bit program counter past the fetched instruction
and then dispatches it. -/
def Chip8.cycle (s : Chip8) (opcode rnd : Nat) : ExecResult :=
  Chip8.execute { s with program_counter := (s.program_counter + 2) % 65536 } opcode rnd

/-- A machine state exercising `Fx1E`: `I = 0x200` and `V14 = 5`
(under the dispatch's field extraction, `Fx1E` always selects register
`0xE` as `x`). -/
def stateFx1E : Chip8 :=
  { Chip8.new with
    i_register := 0x200
    v_registers := (List.replicate 16 0).set 14 5 }

/-- A machine state exercising `8xy4` with `y = 15`: `V0 = 0`,
`V15 = 5`. -/
def stateAddY15 : Chip8 :=
  { Chip8.new with v_registers := (List.replicate 16 0).set 15 5 }

/-- A machine state for the spec's `Add(reg,reg)` example:
`V0 = 0xFF`, `V1 = 0x01`. -/
def stateAddFF : Chip8 :=
  { Chip8.new with v_registers := ((List.replicate 16 0).set 0 0xFF).set 1 1 }

/-- A machine state for the spec's second `Add(reg,reg)` example:
`V0 = 0x01`, `V1 = 0x01`. -/
def stateAdd11 : Chip8 :=
  { Chip8.new with v_registers := ((List.replicate 16 0).set 0 1).set 1 1 }

/-!
Helper lemmas about the embedding, shared by the claim theorems below.
-/

@[simp] theorem state_ok (s : Chip8) : (ExecResult.ok s).state = s := rfl

@[simp] theorem state_fault (e : Fault) (s : Chip8) : (ExecResult.fault e s).state = s := rfl

@[simp] theorem isOk_ok (s : Chip8) : (ExecResult.ok s).isOk = true := rfl

@[simp] theorem isOk_fault (e : Fault) (s : Chip8) : (ExecResult.fault e s).isOk = false := rfl

theorem getD_set_self (l : List Nat) (i a : Nat) (h : i < l.length) :
    (l.set i a).getD i 0 = a := by
  simp [List.getD_eq_getElem?_getD, List.getElem?_set_self h]

theorem getD_set_other (l : List Nat) {i j : Nat} (a : Nat) (h : i ≠ j) :
    (l.set i a).getD j 0 = l.getD j 0 := by
  simp [List.getD_eq_getElem?_getD, List.getElem?_set_ne h]

theorem getD_lt_256 (l : List Nat) (i : Nat) (h : ∀ b ∈ l, b < 256) :
    l.getD i 0 < 256 := by
  rcases Nat.lt_or_ge i l.length with hi | hi
  · have : l.getD i 0 = l[i] := by
      simp [List.getD_eq_getElem?_getD, List.getElem?_eq_getElem hi]
    exact this ▸ h _ (List.getElem_mem hi)
  · have : l.getD i 0 = 0 := by
      simp [List.getD_eq_getElem?_getD, List.getElem?_eq_none hi]
    omega

theorem memory_new_length : Memory.new.data.length = 4096 := by
  simp only [Memory.new, List.length_append, List.length_replicate, List.length_cons,
    List.length_nil]

theorem bind_state_pc (r : ExecResult) (f : Chip8 → ExecResult) (s : Chip8)
    (hr : r.state.program_counter = s.program_counter)
    (hf : ∀ t, (f t).state.program_counter = t.program_counter) :
    (r.bind f).state.program_counter = s.program_counter := by
  cases r with
  | ok t =>
    have := hf t
    simp only [ExecResult.bind]
    simp only [ExecResult.state] at hr
    omega
  | fault e t =>
    simpa [ExecResult.bind] using hr

theorem foldl_bind_state_pc (g : Chip8 → Nat → ExecResult)
    (hg : ∀ t i, (g t i).state.program_counter = t.program_counter)
    (l : List Nat) :
    ∀ (r : ExecResult) (s : Chip8),
      r.state.program_counter = s.program_counter →
      (l.foldl (fun acc i => acc.bind (fun t => g t i)) r).state.program_counter
        = s.program_counter := by
  induction l with
  | nil => intro r s hr; simpa using hr
  | cons a as ih =>
    intro r s hr
    simp only [List.foldl_cons]
    exact ih _ s (bind_state_pc r _ s hr (fun t => hg t a))

theorem assignDiscard_state_pc (s : Chip8) (a v : Nat) :
    (assignDiscard s a v).state.program_counter = s.program_counter := by
  unfold assignDiscard
  cases hm : s.memory.assign a v <;> simp

theorem add_to_i_register_state_pc (s : Chip8) (x : Nat) :
    (s.add_to_i_register x).state.program_counter = s.program_counter := by
  unfold Chip8.add_to_i_register
  cases hm : s.memory.address s.i_register with
  | val b => exact assignDiscard_state_pc s _ _
  | invalid => rfl
  | crash a => rfl

theorem store_bcd_state_pc (s : Chip8) (x : Nat) :
    (s.store_bcd x).state.program_counter = s.program_counter := by
  unfold Chip8.store_bcd
  apply bind_state_pc _ _ _ (assignDiscard_state_pc s _ _)
  intro t1
  apply bind_state_pc _ _ _ (assignDiscard_state_pc t1 _ _)
  intro t2
  exact assignDiscard_state_pc t2 _ _

theorem store_registers_state_pc (s : Chip8) (x : Nat) :
    (s.store_registers x).state.program_counter = s.program_counter := by
  unfold Chip8.store_registers
  exact foldl_bind_state_pc
    (fun t i => assignDiscard t (t.i_register + i) (t.v_registers.getD i 0))
    (fun t i => assignDiscard_state_pc t _ _) (List.range (x + 1)) (.ok s) s rfl

theorem load_registers_state_pc (s : Chip8) (x : Nat) :
    (s.load_registers x).state.program_counter = s.program_counter := by
  unfold Chip8.load_registers
  refine foldl_bind_state_pc _ ?_ (List.range (x + 1)) (.ok s) s rfl
  intro t i
  cases hm : t.memory.address (t.i_register + i) <;> simp

theorem draw_state_pc (s : Chip8) (x y nibble : Nat) :
    (s.draw x y nibble).state.program_counter = s.program_counter := by
  unfold Chip8.draw
  refine foldl_bind_state_pc _ ?_ (List.range (nibble &&& 0x0F)) (.ok s) s rfl
  intro t i
  cases hm : t.memory.address (t.i_register + i) <;> simp

theorem logitcal_op_state_pc (s : Chip8) (opcode : Nat) :
    (s.logitcal_op opcode).state.program_counter = s.program_counter := by
  simp only [Chip8.logitcal_op]
  split_ifs <;>
    simp [Chip8.load_from_to, Chip8.or, Chip8.and, Chip8.xor,
      Chip8.add, Chip8.sub, Chip8.shr, Chip8.subn, Chip8.shl]

theorem skip_with_key_status_state_pc (s : Chip8) (opcode : Nat) :
    (s.skip_with_key_status opcode).state.program_counter = s.program_counter := by
  simp only [Chip8.skip_with_key_status]
  split_ifs <;> simp

theorem fx_inst_state_pc (s : Chip8) (opcode : Nat) :
    (s.fx_inst opcode).state.program_counter = s.program_counter := by
  simp only [Chip8.fx_inst]
  split_ifs <;>
    simp [Chip8.load_delay_timer, Chip8.wait_for_key_press,
      Chip8.set_delay_timer, Chip8.set_sound_timer, Chip8.set_i_register,
      add_to_i_register_state_pc, store_bcd_state_pc, store_registers_state_pc,
      load_registers_state_pc]

/-!
Claim theorems.
-/

/-- C1: the claim says the decoder extracts `x` from bits 8–11 and `y`
from bits 4–7.  The dispatchers instead compute `opcode & (0x0F00 >> 8)`
and `opcode & (0x00F0 >> 4)` — Rust's shift binds tighter than `&` — so
both fields come out as the LOW nibble: for opcode `0x6A3C` the claimed
layout gives `x = 0xA`, `y = 0x3`, but the code yields `0xC` for both.
The remaining fields (`addr`, `nibble`, `byte`, `opclass`) do follow
the claimed layout. -/
theorem decode_xy_precedence_bug :
    decodeX 0x6A3C = 0xC ∧ decodeY 0x6A3C = 0xC ∧
    decodeAddr 0x6A3C = 0xA3C ∧ decodeNibble 0x6A3C = 0xC ∧
    decodeByte 0x6A3C = 0x3C ∧ decodeOpclass 0x6A3C = 0x6000 ∧
    (∀ opcode : Nat, decodeX opcode = opcode &&& 0xF) ∧
    (∀ opcode : Nat, decodeY opcode = opcode &&& 0xF) := by
  refine ⟨by decide, by decide, by decide, by decide, by decide, by decide, ?_, ?_⟩ <;>
    intro opcode <;> rfl

/-- C2: the claim says a write fails with an OutOfBounds error exactly
outside `[0x200, 0x1000)`.  The source's guard is `addr <= 0x1000`
(inclusive), so at `addr = 0x1000` the write is NOT rejected with the
error: the guard passes and the 4096-element array index panics.
Writes below 0x200 and above 0x1000 do return the error, and writes in
`[0x200, 0xFFF]` succeed. -/
theorem assign_bound_off_by_one :
    Memory.assign Memory.new 0x1000 0xAB = .crash 0x1000 ∧
    Memory.assign Memory.new 0x1FF 0xAB = .err 0x1FF ∧
    Memory.assign Memory.new 0x1001 0xAB = .err 0x1001 := by
  refine ⟨?_, ?_, ?_⟩ <;> rfl

/-- C3: the claim says reads of the font region `[0x000, 0x200)`
succeed and reads fail only at addresses ≥ 0x1000.  The source's
`Memory::address` uses the same `addr >= 0x200 && addr <= 0x1000`
guard as writes, so every font-region read returns `None` (here:
address 0 holds glyph byte 0xF0 but cannot be read), and the read at
exactly 0x1000 panics on the array index instead of failing cleanly. -/
theorem address_font_region_rejected :
    Memory.address Memory.new 0x000 = .invalid ∧
    Memory.address Memory.new 0x04F = .invalid ∧
    Memory.new.data.getD 0x000 0 = 0xF0 ∧
    Memory.address Memory.new 0x1000 = .crash 0x1000 := by
  refine ⟨?_, ?_, ?_, ?_⟩ <;> rfl

/-- C4: for every address in `[0x200, 0x1000)` and every byte value,
writing and then reading back at that address returns the written
value. -/
theorem write_read_roundtrip (m : Memory) (addr v : Nat)
    (hlen : m.data.length = 4096) (h1 : 0x200 ≤ addr) (h2 : addr < 0x1000) :
    Memory.assign m addr v = .ok ⟨m.data.set addr v⟩ ∧
    Memory.address ⟨m.data.set addr v⟩ addr = .val v := by
  constructor
  · unfold Memory.assign
    rw [if_pos ⟨h1, by omega⟩, if_pos (by omega)]
  · unfold Memory.address
    rw [if_pos ⟨h1, by omega⟩, if_pos (by omega)]
    have hv : (m.data.set addr v).getD addr 0 = v :=
      getD_set_self m.data addr v (by omega)
    rw [hv]

/-- C4 witness: the round trip at address 0x200 with value 0xAB on the
freshly constructed memory. -/
theorem write_read_roundtrip_witness :
    Memory.assign Memory.new 0x200 0xAB = .ok ⟨Memory.new.data.set 0x200 0xAB⟩ ∧
    Memory.address ⟨Memory.new.data.set 0x200 0xAB⟩ 0x200 = .val 0xAB :=
  write_read_roundtrip Memory.new 0x200 0xAB memory_new_length (by decide) (by decide)

/-- C7: at construction all sixteen general registers, `I`, both
timers, the stack pointer and the call stack are zeroed and the font
glyphs are seeded from address 0 — but the program counter is
initialized to 0, NOT to the claimed guest-entry address 0x200. -/
theorem new_program_counter_zero :
    Chip8.new.program_counter = 0 ∧
    Chip8.new.v_registers = List.replicate 16 0 ∧
    Chip8.new.i_register = 0 ∧
    Chip8.new.delay_timer = 0 ∧
    Chip8.new.sound_timer = 0 ∧
    Chip8.new.stack_pointer = 0 ∧
    Chip8.new.stack = List.replicate 16 0 ∧
    Chip8.new.memory.data.getD 0 0 = 0xF0 ∧
    Chip8.new.memory.data.getD 79 0 = 0x80 ∧
    Chip8.new.memory.data.getD 80 0 = 0 := by
  refine ⟨rfl, rfl, rfl, rfl, rfl, rfl, rfl, ?_, ?_, ?_⟩ <;> rfl

/-- C5: any opcode whose sub-selector matches no handler arm — an
`0x8`-class opcode whose low nibble is not in {0..7, 0xE}, an
`0xE`-class opcode whose low byte is not 0x9E/0xA1, or an `0xF`-class
opcode whose low byte is not a recognized selector — fails with the
unknown-opcode panic carrying the raw opcode, and the machine state at
the failure is exactly the pre-instruction state. -/
theorem unknown_opcode_faults (s : Chip8) (op rnd : Nat)
    (h : (decodeOpclass op = 0x8000 ∧
            decodeNibble op ∉ ([0x0, 0x1, 0x2, 0x3, 0x4, 0x5, 0x6, 0x7, 0xE] : List Nat)) ∨
         (decodeOpclass op = 0xE000 ∧
            decodeByte op ∉ ([0x9E, 0xA1] : List Nat)) ∨
         (decodeOpclass op = 0xF000 ∧
            decodeByte op ∉ ([0x07, 0x0A, 0x15, 0x18, 0x1E, 0x29, 0x33, 0x55, 0x65] : List Nat))) :
    Chip8.execute s op rnd = .fault (.unknownOpcode op) s := by
  rcases h with ⟨h1, h2⟩ | ⟨h1, h2⟩ | ⟨h1, h2⟩ <;>
    simp only [List.mem_cons, List.not_mem_nil, or_false, not_or] at h2
  · obtain ⟨n0, n1, n2, n3, n4, n5, n6, n7, nE⟩ := h2
    simp [Chip8.execute, h1, Chip8.logitcal_op, n0, n1, n2, n3, n4, n5, n6, n7, nE]
  · obtain ⟨n0, n1⟩ := h2
    simp [Chip8.execute, h1, Chip8.skip_with_key_status, n0, n1]
  · obtain ⟨n0, n1, n2, n3, n4, n5, n6, n7, n8⟩ := h2
    simp [Chip8.execute, h1, Chip8.fx_inst, n0, n1, n2, n3, n4, n5, n6, n7, n8]

/-- C5 witness: opcode 0x8888 (top nibble 8, low nibble 8 — the claim's
own example) faults with the raw opcode and the untouched initial
state. -/
theorem unknown_opcode_faults_witness :
    Chip8.execute Chip8.new 0x8888 0 = .fault (.unknownOpcode 0x8888) Chip8.new :=
  unknown_opcode_faults Chip8.new 0x8888 0 (Or.inl (by decide))

set_option maxRecDepth 16384 in
/-- C6: the claim says `Fx1E` performs `I := I + Vx` and touches no
memory byte.  The source's `add_to_i_register` instead leaves `I`
unchanged and adds `Vx` into the memory byte at `I`: from
`I = 0x200`, `V14 = 5` (and `Fx1E`'s `x` field decoding to `0xE`),
executing opcode 0xF01E leaves `I = 0x200` and turns `memory[0x200]`
from 0 into 5. -/
theorem add_to_i_register_memory_bug :
    (Chip8.execute stateFx1E 0xF01E 0).isOk = true ∧
    (Chip8.execute stateFx1E 0xF01E 0).state.i_register = 0x200 ∧
    stateFx1E.memory.data.getD 0x200 0 = 0 ∧
    (Chip8.execute stateFx1E 0xF01E 0).state.memory.data.getD 0x200 0 = 5 := by
  refine ⟨?_, ?_, ?_, ?_⟩ <;> decide

/-- C8 counterexample: the claim quantifies over all `y` (only `x` is
required to differ from 15), but the source writes the carry flag into
`V15` before reading the addends back, so for `x = 0, y = 15` with
`V0 = 0, V15 = 5` the result register gets `V0 + flag = 0`, not
`(V0 + V15) % 256 = 5`. -/
theorem add_claim_fails_for_y15 :
    ¬ ((Chip8.add stateAddY15 0 15).v_registers.getD 0 0 =
        (stateAddY15.v_registers.getD 0 0 + stateAddY15.v_registers.getD 15 0) % 256) := by
  decide

/-- C8 amended: for register indices `x` and `y` BOTH distinct from 15
(and byte-valued registers), register-register Add sets `Vx` to
`(Vx + Vy) mod 256` and sets `V15` to 1 exactly when the unsigned sum
of the pre-add values exceeds 255, the flag being computed from the
pre-add values. -/
theorem add_sets_sum_and_carry (s : Chip8) (x y : Nat)
    (hlen : s.v_registers.length = 16) (hbytes : ∀ b ∈ s.v_registers, b < 256)
    (hx : x < 16) (hy : y < 16) (hx15 : x ≠ 15) (hy15 : y ≠ 15) :
    (Chip8.add s x y).v_registers.getD x 0 =
      (s.v_registers.getD x 0 + s.v_registers.getD y 0) % 256 ∧
    (Chip8.add s x y).v_registers.getD 15 0 =
      (if 255 < s.v_registers.getD x 0 + s.v_registers.getD y 0 then 1 else 0) := by
  have hylt : s.v_registers.getD y 0 < 256 := getD_lt_256 _ _ hbytes
  have hset : ∀ a : Nat, (s.v_registers.set 15 a).length = 16 := by
    intro a; simp [hlen]
  unfold Chip8.add
  constructor
  · have hxv : ∀ a : Nat,
        (s.v_registers.set 15 a).getD x 0 = s.v_registers.getD x 0 := by
      intro a; exact getD_set_other _ _ (by omega)
    have hyv : ∀ a : Nat,
        (s.v_registers.set 15 a).getD y 0 = s.v_registers.getD y 0 := by
      intro a; exact getD_set_other _ _ (by omega)
    rw [getD_set_self _ _ _ (by rw [hset]; omega), hxv, hyv]
  · have h15 : ∀ a v : Nat,
        ((s.v_registers.set 15 a).set x v).getD 15 0 =
          (s.v_registers.set 15 a).getD 15 0 := by
      intro a v; exact getD_set_other _ _ (by omega)
    rw [h15, getD_set_self _ _ _ (by omega)]
    rcases Nat.lt_or_ge 255 (s.v_registers.getD x 0 + s.v_registers.getD y 0) with hlt | hge
    · rw [if_pos hlt, if_pos (by omega)]
    · rw [if_neg (by omega), if_neg (by omega)]

/-- C8 witness: the spec's two concrete examples.  With `V0 = 0xFF`,
`V1 = 0x01`, Add gives `V0 = 0x00` and `V15 = 1`; with `V0 = 0x01`,
`V1 = 0x01` it gives `V0 = 0x02` and `V15 = 0`. -/
theorem add_sets_sum_and_carry_witness :
    ((Chip8.add stateAddFF 0 1).v_registers.getD 0 0 =
        (stateAddFF.v_registers.getD 0 0 + stateAddFF.v_registers.getD 1 0) % 256 ∧
      (Chip8.add stateAddFF 0 1).v_registers.getD 15 0 =
        (if 255 < stateAddFF.v_registers.getD 0 0 + stateAddFF.v_registers.getD 1 0
          then 1 else 0)) ∧
    ((Chip8.add stateAdd11 0 1).v_registers.getD 0 0 =
        (stateAdd11.v_registers.getD 0 0 + stateAdd11.v_registers.getD 1 0) % 256 ∧
      (Chip8.add stateAdd11 0 1).v_registers.getD 15 0 =
        (if 255 < stateAdd11.v_registers.getD 0 0 + stateAdd11.v_registers.getD 1 0
          then 1 else 0)) :=
  ⟨add_sets_sum_and_carry stateAddFF 0 1 (by decide) (by decide) (by decide) (by decide)
      (by decide) (by decide),
    add_sets_sum_and_carry stateAdd11 0 1 (by decide) (by decide) (by decide) (by decide)
      (by decide) (by decide)⟩

/-- C10: executing any of the four conditional-skip opcodes (`3xkk`,
`4xkk`, `5xy0`, `9xy0`) always succeeds and modifies no part of the
state other than the program counter: the sixteen general registers,
`I`, both timers, the stack pointer, the call stack and all of memory
are unchanged. -/
theorem skip_frame (s : Chip8) (op rnd : Nat)
    (h : decodeOpclass op ∈ ([0x3000, 0x4000, 0x5000, 0x9000] : List Nat)) :
    (Chip8.execute s op rnd).isOk = true ∧
    (Chip8.execute s op rnd).state.v_registers = s.v_registers ∧
    (Chip8.execute s op rnd).state.i_register = s.i_register ∧
    (Chip8.execute s op rnd).state.delay_timer = s.delay_timer ∧
    (Chip8.execute s op rnd).state.sound_timer = s.sound_timer ∧
    (Chip8.execute s op rnd).state.stack_pointer = s.stack_pointer ∧
    (Chip8.execute s op rnd).state.stack = s.stack ∧
    (Chip8.execute s op rnd).state.memory = s.memory := by
  simp only [List.mem_cons, List.not_mem_nil, or_false] at h
  rcases h with h | h | h | h <;>
    simp only [Chip8.execute, h] <;>
    norm_num <;>
    simp only [Chip8.skip_if_equal, Chip8.skip_if_not_equal,
      Chip8.skip_if_registers_equal, Chip8.skip_if_registers_not_equal] <;>
    split_ifs <;>
    simp

/-- C10 witness: opcode 0x3000 on the freshly constructed machine. -/
theorem skip_frame_witness :
    (Chip8.execute Chip8.new 0x3000 0).isOk = true ∧
    (Chip8.execute Chip8.new 0x3000 0).state.v_registers = Chip8.new.v_registers ∧
    (Chip8.execute Chip8.new 0x3000 0).state.i_register = Chip8.new.i_register ∧
    (Chip8.execute Chip8.new 0x3000 0).state.delay_timer = Chip8.new.delay_timer ∧
    (Chip8.execute Chip8.new 0x3000 0).state.sound_timer = Chip8.new.sound_timer ∧
    (Chip8.execute Chip8.new 0x3000 0).state.stack_pointer = Chip8.new.stack_pointer ∧
    (Chip8.execute Chip8.new 0x3000 0).state.stack = Chip8.new.stack ∧
    (Chip8.execute Chip8.new 0x3000 0).state.memory = Chip8.new.memory :=
  skip_frame Chip8.new 0x3000 0 (by decide)

/-- C9: over one driving-loop cycle (fetch advance modelled from the
spec + the source's `Chip8::execute`): jumps and calls replace the
program counter with their target outright; a conditional skip leaves
the program counter advanced by 4 in total when its condition holds
and by 2 otherwise; and every other opcode class that executes
successfully leaves it advanced by exactly 2. -/
theorem cycle_program_counter (s : Chip8) (op rnd : Nat)
    (hpc : s.program_counter + 4 < 65536)
    (hok : (Chip8.cycle s op rnd).isOk = true) :
    (decodeOpclass op = 0x1000 →
      (Chip8.cycle s op rnd).state.program_counter = decodeAddr op) ∧
    (decodeOpclass op = 0x2000 →
      (Chip8.cycle s op rnd).state.program_counter = decodeAddr op) ∧
    (decodeOpclass op = 0xB000 →
      (Chip8.cycle s op rnd).state.program_counter =
        decodeAddr op + s.v_registers.getD 0 0) ∧
    (decodeOpclass op = 0x3000 →
      (Chip8.cycle s op rnd).state.program_counter =
        if s.v_registers.getD (decodeX op) 0 = decodeByte op
        then s.program_counter + 4 else s.program_counter + 2) ∧
    (decodeOpclass op = 0x4000 →
      (Chip8.cycle s op rnd).state.program_counter =
        if s.v_registers.getD (decodeX op) 0 ≠ decodeByte op
        then s.program_counter + 4 else s.program_counter + 2) ∧
    (decodeOpclass op = 0x5000 →
      (Chip8.cycle s op rnd).state.program_counter =
        if s.v_registers.getD (decodeX op) 0 = s.v_registers.getD (decodeY op) 0
        then s.program_counter + 4 else s.program_counter + 2) ∧
    (decodeOpclass op = 0x9000 →
      (Chip8.cycle s op rnd).state.program_counter =
        if s.v_registers.getD (decodeX op) 0 ≠ s.v_registers.getD (decodeY op) 0
        then s.program_counter + 4 else s.program_counter + 2) ∧
    (decodeOpclass op ∈
        ([0x0000, 0x6000, 0x7000, 0x8000, 0xA000, 0xC000, 0xD000, 0xE000, 0xF000] :
          List Nat) →
      (Chip8.cycle s op rnd).state.program_counter = s.program_counter + 2) := by
  have hmod : (s.program_counter + 2) % 65536 = s.program_counter + 2 :=
    Nat.mod_eq_of_lt (by omega)
  have hcyc : Chip8.cycle s op rnd =
      Chip8.execute { s with program_counter := s.program_counter + 2 } op rnd := by
    unfold Chip8.cycle; rw [hmod]
  refine ⟨?_, ?_, ?_, ?_, ?_, ?_, ?_, ?_⟩
  · intro h
    rw [hcyc]
    simp [Chip8.execute, h, Chip8.jump_to, decodeAddr]
  · intro h
    rw [hcyc]
    simp [Chip8.execute, h, Chip8.call_subroutine, decodeAddr]
  · intro h
    rw [hcyc]
    simp [Chip8.execute, h, Chip8.jump_with_offset, decodeAddr]
  · intro h
    rw [hcyc]
    simp only [Chip8.execute, h]
    norm_num [Chip8.skip_if_equal]
    split_ifs <;> simp <;> omega
  · intro h
    rw [hcyc]
    simp only [Chip8.execute, h]
    norm_num [Chip8.skip_if_not_equal]
    split_ifs <;> simp <;> omega
  · intro h
    rw [hcyc]
    simp only [Chip8.execute, h]
    norm_num [Chip8.skip_if_registers_equal]
    split_ifs <;> simp <;> omega
  · intro h
    rw [hcyc]
    simp only [Chip8.execute, h]
    norm_num [Chip8.skip_if_registers_not_equal]
    split_ifs <;> simp <;> omega
  · intro h
    simp only [List.mem_cons, List.not_mem_nil, or_false] at h
    rw [hcyc]
    rcases h with h | h | h | h | h | h | h | h | h
    · simp [Chip8.execute, h]
    · simp [Chip8.execute, h, Chip8.load_to_register]
    · simp [Chip8.execute, h, Chip8.add_to_register]
    · simp only [Chip8.execute, h]
      norm_num
      exact logitcal_op_state_pc { s with program_counter := s.program_counter + 2 } op
    · simp [Chip8.execute, h, Chip8.load_i]
    · simp [Chip8.execute, h, Chip8.random_and]
    · simp only [Chip8.execute, h]
      norm_num
      exact draw_state_pc { s with program_counter := s.program_counter + 2 }
        (decodeX op) (decodeY op) (decodeNibble op)
    · simp only [Chip8.execute, h]
      norm_num
      exact skip_with_key_status_state_pc
        { s with program_counter := s.program_counter + 2 } op
    · simp only [Chip8.execute, h]
      norm_num
      exact fx_inst_state_pc { s with program_counter := s.program_counter + 2 } op

/-- C9 witness: a load-immediate opcode (0x6105) on a machine whose
program counter is 0x200 advances the program counter to 0x202. -/
theorem cycle_program_counter_witness :
    (Chip8.cycle { Chip8.new with program_counter := 0x200 } 0x6105 0).state.program_counter =
      0x200 + 2 :=
  (cycle_program_counter { Chip8.new with program_counter := 0x200 } 0x6105 0
    (by decide) (by decide)).2.2.2.2.2.2.2 (by decide)
